import Mathlib

/-!
Shallow embedding of the PvZ-Rust simulation core (src/main.rs) and proofs
about its per-tick update, click handling, coordinate mapping, economy and
entity-collection invariants.  Screen coordinates (f32 in the source) are
modelled as exact rationals; u32 counters wrap modulo 2^32; Rust panics
(out-of-bounds Vec indexing / Vec::remove) are modelled by Option, with
none standing for a panic.  VecDeque::remove returns Option in Rust and is
discarded there, so an out-of-range deque removal is a silent no-op.
-/

namespace PvZ

/-- 2^32, the wrap-around modulus for the u32 counters of the source. -/
def U32 : ℕ := 4294967296

-- Configuration constants (src/main.rs lines 13-23).
def WINDOW_WIDTH : ℚ := 800
def WINDOW_HEIGHT : ℚ := 600
def TOOLBAR_HEIGHT : ℚ := 100
def GRID_ROWS : ℕ := 5
def GRID_COLUMNS : ℕ := 9
def CELL_SIZE : ℚ := 80
def SUN_PRODUCE_INTERVAL : ℕ := 120
def SUN_FALL_SPEED : ℚ := 1 / 2
def PEASHOOTER_SHOOT_INTERVAL : ℕ := 60
def PEASHOOTER_BULLET_SPEED : ℚ := 2
def DEFAULT_ZOMBIE_SPEED : ℚ := 1

/-- Screen-space vector (the source uses glam Vec2 of f32). -/
structure Vec2 where
  x : ℚ
  y : ℚ
deriving DecidableEq

/-- Plant (defender) categories. -/
inductive PlantType where
  | Sunflower
  | Peashooter
deriving DecidableEq

/-- A placed plant (defender). -/
structure Plant where
  cell : ℕ × ℕ
  plant_type : PlantType
  health : ℕ
  last_sun_time : ℕ
  last_shoot_time : ℕ
deriving DecidableEq

/-- A zombie (attacker). -/
structure Zombie where
  position : Vec2
  speed : ℚ
  health : ℕ
  is_blocked : Bool
deriving DecidableEq

/-- A sun (resource drop). -/
structure Sun where
  position : Vec2
  is_collected : Bool
  fall_timer : ℕ
deriving DecidableEq

/-- A pea bullet (projectile). -/
structure Bullet where
  position : Vec2
  row : ℕ
deriving DecidableEq

/-- The whole game state (struct MyGame). -/
structure MyGame where
  selected_plant : Option PlantType
  sun : ℕ
  plants : List Plant
  zombies : List Zombie
  spawn_timer : ℕ
  sun_timer : ℕ
  suns : List Sun
  bullets : List Bullet
  game_over : Bool
deriving DecidableEq

/-- Mouse buttons relevant to mouse_button_down_event. -/
inductive MouseButton where
  | Left
  | Right
  | Middle
deriving DecidableEq

/-- MyGame::new (lines 76-89). -/
def MyGame.new : MyGame :=
  { selected_plant := none
    sun := 50
    plants := []
    zombies := []
    spawn_timer := 0
    sun_timer := 0
    suns := []
    bullets := []
    game_over := false }

/-- Rust `as usize` cast from f32: truncation toward zero, saturating at 0
for negative inputs.  On nonnegative rationals this is the floor; on
negative rationals the floor is negative and toNat yields 0, matching the
saturating cast. -/
def castUsize (q : ℚ) : ℕ := (⌊q⌋).toNat

/-- MyGame::screen_to_cell (lines 92-106). -/
def screen_to_cell (x y : ℚ) : Option (ℕ × ℕ) :=
  if y < TOOLBAR_HEIGHT then none
  else
    let row := castUsize ((y - TOOLBAR_HEIGHT) / CELL_SIZE)
    let col := castUsize (x / CELL_SIZE)
    if row < GRID_ROWS ∧ col < GRID_COLUMNS then some (row, col) else none

/-- MyGame::cell_to_screen (lines 109-114). -/
def cell_to_screen : ℕ × ℕ → Vec2
  | (row, col) =>
    ⟨(col : ℚ) * CELL_SIZE + CELL_SIZE / 2,
     (row : ℚ) * CELL_SIZE + TOOLBAR_HEIGHT + CELL_SIZE / 2⟩

/-- MyGame::get_plant_cost (lines 117-122). -/
def get_plant_cost : PlantType → ℕ
  | PlantType.Sunflower => 50
  | PlantType.Peashooter => 100

/-! ### The per-tick update (EventHandler::update, lines 126-262) -/

/-- Sun production for one plant (lines 133-146): a Sunflower advances its
timer (u32, wrapping) and, on reaching the interval, resets it and emits a
sun at the plant's cell center. -/
def stepSunflower (p : Plant) : Plant × Option Sun :=
  if p.plant_type = PlantType.Sunflower then
    if SUN_PRODUCE_INTERVAL ≤ (p.last_sun_time + 1) % U32 then
      ({ p with last_sun_time := 0 },
       some ⟨cell_to_screen p.cell, false, 0⟩)
    else
      ({ p with last_sun_time := (p.last_sun_time + 1) % U32 }, none)
  else (p, none)

/-- The sun-production pass over all plants, emitting suns in plant order. -/
def produceSuns : List Plant → List Plant × List Sun
  | [] => ([], [])
  | p :: rest =>
    let r := stepSunflower p
    let rr := produceSuns rest
    (r.1 :: rr.1, r.2.toList ++ rr.2)

/-- Sun falling (lines 148-154): every uncollected sun advances its fall
timer and moves down by SUN_FALL_SPEED, unconditionally. -/
def fallSun (su : Sun) : Sun :=
  if su.is_collected then su
  else
    { su with
        fall_timer := (su.fall_timer + 1) % U32
        position := ⟨su.position.x, su.position.y + SUN_FALL_SPEED⟩ }

/-- Shooting for one plant (lines 157-169): a Peashooter advances its timer
and, on reaching the interval, resets it and emits a bullet at its cell
center, tagged with its row. -/
def stepPeashooter (p : Plant) : Plant × Option Bullet :=
  if p.plant_type = PlantType.Peashooter then
    if PEASHOOTER_SHOOT_INTERVAL ≤ (p.last_shoot_time + 1) % U32 then
      ({ p with last_shoot_time := 0 },
       some ⟨cell_to_screen p.cell, p.cell.1⟩)
    else
      ({ p with last_shoot_time := (p.last_shoot_time + 1) % U32 }, none)
  else (p, none)

/-- The shooting pass over all plants. -/
def shootPlants : List Plant → List Plant × List Bullet
  | [] => ([], [])
  | p :: rest =>
    let r := stepPeashooter p
    let rr := shootPlants rest
    (r.1 :: rr.1, r.2.toList ++ rr.2)

/-- Bullet movement (lines 172-174). -/
def moveBullet (b : Bullet) : Bullet :=
  { b with position := ⟨b.position.x + PEASHOOTER_BULLET_SPEED, b.position.y⟩ }

/-- The bullet-zombie hit test (lines 181-184): same derived row and within
20 pixels on both axes. -/
def hitTest (b : Bullet) (z : Zombie) : Bool :=
  decide (b.row = castUsize ((z.position.y - TOOLBAR_HEIGHT) / CELL_SIZE) ∧
          |z.position.x - b.position.x| < 20 ∧ |z.position.y - b.position.y| < 20)

/-- Inner collision loop for one bullet (lines 180-192): the first zombie
passing the hit test takes 10 saturating damage; its index is recorded for
removal when its health reaches 0 (even if it was already 0); the bullet
records a hit and stops scanning.  Returns the updated zombies, the
optional zombie index pushed, and whether the bullet hit. -/
def shootZombies (b : Bullet) : List Zombie → ℕ → List Zombie × Option ℕ × Bool
  | [], _ => ([], none, false)
  | z :: rest, j =>
    if hitTest b z then
      let z2 := { z with health := z.health - 10 }
      (z2 :: rest, if z2.health = 0 then some j else none, true)
    else
      let r := shootZombies b rest (j + 1)
      (z :: r.1, r.2)

/-- Outer collision loop (lines 177-193): bullets in order, each scanning
the current zombies; collects bullet indices and zombie indices to remove,
in push order. -/
def collideBullets : List Bullet → List Zombie → ℕ → List Zombie × List ℕ × List ℕ
  | [], zs, _ => (zs, [], [])
  | b :: rest, zs, i =>
    let r := shootZombies b zs 0
    let rr := collideBullets rest r.1 (i + 1)
    (rr.1, (if r.2.2 then [i] else []) ++ rr.2.1, r.2.1.toList ++ rr.2.2)

/-- Vec::remove: panics (none) when the index is out of bounds. -/
def vecRemove {α : Type} (l : List α) (i : ℕ) : Option (List α) :=
  if i < l.length then some (l.eraseIdx i) else none

/-- Sequential Vec::remove at each listed index (the source iterates the
collected indices in reverse, so callers pass the reversed list). -/
def vecRemoveList {α : Type} : List α → List ℕ → Option (List α)
  | l, [] => some l
  | l, i :: rest =>
    match vecRemove l i with
    | none => none
    | some l2 => vecRemoveList l2 rest

/-- Sequential VecDeque::remove: an out-of-range index is a silent no-op
(the Option result is discarded in the source, lines 198-200). -/
def dequeRemoveList {α : Type} (l : List α) (idxs : List ℕ) : List α :=
  idxs.foldl (fun acc i => acc.eraseIdx i) l

/-- Zombie movement (lines 203-207): unblocked zombies move left by their
speed. -/
def moveZombie (z : Zombie) : Zombie :=
  if z.is_blocked then z
  else { z with position := ⟨z.position.x - z.speed, z.position.y⟩ }

/-- The zombie-plant proximity test (lines 214, 228). -/
def inProx (pos : Vec2) (z : Zombie) : Bool :=
  decide (|z.position.x - pos.x| < 25 ∧ |z.position.y - pos.y| < 35)

/-- Inner blocking loop for one plant (lines 213-223): every zombie in
proximity is marked blocked and deals 1 saturating damage to the plant
(one removal push each time the health is 0 after the hit); every zombie
out of proximity is marked unblocked.  Returns the updated zombies, the
plant's final health, and the number of removal pushes. -/
def blockOnePlant (pos : Vec2) : ℕ → List Zombie → List Zombie × ℕ × ℕ
  | h, [] => ([], h, 0)
  | h, z :: rest =>
    if inProx pos z then
      let h2 := h - 1
      let r := blockOnePlant pos h2 rest
      ({ z with is_blocked := true } :: r.1, r.2.1, (if h2 = 0 then 1 else 0) + r.2.2)
    else
      let r := blockOnePlant pos h rest
      ({ z with is_blocked := false } :: r.1, r.2)

/-- The blocking-and-contact-damage phase (lines 210-224): plants in order,
each running the inner loop over all zombies; collects the pushed plant
indices in order. -/
def blockingPhase : List Plant → List Zombie → ℕ → List Plant × List Zombie × List ℕ
  | [], zs, _ => ([], zs, [])
  | p :: rest, zs, i =>
    let r := blockOnePlant (cell_to_screen p.cell) p.health zs
    let rr := blockingPhase rest r.1 (i + 1)
    ({ p with health := r.2.1 } :: rr.1, rr.2.1, List.replicate r.2.2 i ++ rr.2.2)

/-- The dead-plant removal pass (lines 225-233): for each collected index
in collection order, unblock the zombies near that plant and Vec::remove
it.  Both the indexing and the removal panic (none) when the index is out
of bounds. -/
def unblockAndRemove : List Plant → List Zombie → List ℕ → Option (List Plant × List Zombie)
  | ps, zs, [] => some (ps, zs)
  | ps, zs, i :: rest =>
    if h : i < ps.length then
      let pos := cell_to_screen (ps.get ⟨i, h⟩).cell
      let zs2 := zs.map fun z => if inProx pos z then { z with is_blocked := false } else z
      unblockAndRemove (ps.eraseIdx i) zs2 rest
    else none

/-- Boundary loss check (lines 236-241): defeat iff some zombie has x
strictly below 0. -/
def anyPastBoundary (zs : List Zombie) : Bool :=
  zs.any fun z => decide (z.position.x < 0)

/-- Cleanup (line 244): retain only zombies with x strictly above 0. -/
def retainZombies (zs : List Zombie) : List Zombie :=
  zs.filter fun z => decide (0 < z.position.x)

/-- The zombie created by the spawner (lines 250-258), with the random row
and speed multiplier injected. -/
def spawnZombie (row : ℕ) (jit : ℚ) : Zombie :=
  ⟨⟨WINDOW_WIDTH, (row : ℚ) * CELL_SIZE + TOOLBAR_HEIGHT + CELL_SIZE / 2⟩,
   DEFAULT_ZOMBIE_SPEED * jit, 50, false⟩

/-- EventHandler::update (lines 126-262), with the spawner's random draws
injected as arguments.  Returns none when the tick panics (out-of-bounds
Vec indexing in the dead-plant removal pass). -/
def update (s : MyGame) (spawnRow : ℕ) (speedJitter : ℚ) : Option MyGame :=
  if s.game_over then some s
  else
    let sun_timer2 := (s.sun_timer + 1) % U32
    let pr := produceSuns s.plants
    let suns1 := (s.suns ++ pr.2).map fallSun
    let sh := shootPlants pr.1
    let bullets1 := (s.bullets ++ sh.2).map moveBullet
    let col := collideBullets bullets1 s.zombies 0
    match vecRemoveList bullets1 col.2.1.reverse with
    | none => none
    | some bullets2 =>
      let zombies2 := dequeRemoveList col.1 col.2.2.reverse
      let zombies3 := zombies2.map moveZombie
      let bl := blockingPhase sh.1 zombies3 0
      match unblockAndRemove bl.1 bl.2.1 bl.2.2 with
      | none => none
      | some pz =>
        let go := anyPastBoundary pz.2
        let zombies6 := retainZombies pz.2
        let spawn_timer2 := (s.spawn_timer + 1) % U32
        if 360 ≤ spawn_timer2 then
          some { s with
                   sun_timer := sun_timer2
                   plants := pz.1
                   suns := suns1
                   bullets := bullets2
                   zombies := zombies6 ++ [spawnZombie spawnRow speedJitter]
                   game_over := go
                   spawn_timer := 0 }
        else
          some { s with
                   sun_timer := sun_timer2
                   plants := pz.1
                   suns := suns1
                   bullets := bullets2
                   zombies := zombies6
                   game_over := go
                   spawn_timer := spawn_timer2 }

/-! ### The click handler (mouse_button_down_event, lines 413-478) -/

/-- Sun collection pass (lines 446-451): every uncollected sun within 20
pixels of the click on both axes is marked collected; returns the marked
suns and the number of collections (each of which credits 25). -/
def collectSuns (x y : ℚ) : List Sun → List Sun × ℕ
  | [] => ([], 0)
  | su :: rest =>
    let r := collectSuns x y rest
    if su.is_collected = false ∧ |su.position.x - x| < 20 ∧ |su.position.y - y| < 20 then
      ({ su with is_collected := true } :: r.1, r.2 + 1)
    else
      (su :: r.1, r.2)

/-- c successive wrapping additions of 25 to the u32 sun balance. -/
def creditN : ℕ → ℕ → ℕ
  | b, 0 => b
  | b, Nat.succ k => creditN ((b + 25) % U32) k

/-- The plant placed on success (lines 466-472). -/
def mkPlant (cell : ℕ × ℕ) (pt : PlantType) : Plant :=
  ⟨cell, pt, 100, 0, 0⟩

/-- The placement block (lines 455-475), given the already-resolved cell:
occupied cell → no-op; otherwise, with a selected type whose cost is
affordable, debit the cost and append the new plant; otherwise no-op. -/
def placePlant (s : MyGame) (cell : ℕ × ℕ) : MyGame :=
  if ∃ p ∈ s.plants, p.cell = cell then s
  else
    match s.selected_plant with
    | none => s
    | some pt =>
      if get_plant_cost pt ≤ s.sun then
        { s with
            sun := s.sun - get_plant_cost pt
            plants := s.plants ++ [mkPlant cell pt] }
      else s

/-- EventHandler::mouse_button_down_event (lines 413-478). -/
def mouse_button_down_event (s : MyGame) (button : MouseButton) (x y : ℚ) : MyGame :=
  if s.game_over then s
  else if button ≠ MouseButton.Left then s
  else if y < TOOLBAR_HEIGHT then
    if 100 < x ∧ x < 180 ∧ 20 < y ∧ y < 80 then
      { s with selected_plant := some PlantType.Sunflower }
    else if 200 < x ∧ x < 280 ∧ 20 < y ∧ y < 80 then
      { s with selected_plant := some PlantType.Peashooter }
    else if 300 < x ∧ x < 380 ∧ 20 < y ∧ y < 80 then
      { s with selected_plant := none }
    else s
  else
    let cs := collectSuns x y s.suns
    let s2 := { s with
                  suns := cs.1.filter fun su => su.is_collected = false
                  sun := creditN s.sun cs.2 }
    match screen_to_cell x y with
    | none => s2
    | some cell => placePlant s2 cell

/-- The defender-cell uniqueness invariant: no two placed plants share a
grid cell. -/
def plantsUnique (s : MyGame) : Prop := (s.plants.map fun p => p.cell).Nodup

/-- Scenario A state: fresh game with the Producer (Sunflower, cost 50)
selected and the starting balance of 50. -/
def scenarioA : MyGame := { MyGame.new with selected_plant := some PlantType.Sunflower }

/-! ### Helper lemmas -/

lemma pea_ne_sun : (PlantType.Peashooter = PlantType.Sunflower) = False := by simp

lemma castUsize_natCast_add_half (n : ℕ) : castUsize ((n : ℚ) + 2⁻¹) = n := by
  unfold castUsize
  have hhalf : (0 : ℚ) < 2⁻¹ := by norm_num
  have hhalf2 : (2⁻¹ : ℚ) < 1 := by norm_num
  have h : ⌊(n : ℚ) + 2⁻¹⌋ = (n : ℤ) := by
    rw [Int.floor_eq_iff]
    constructor
    · push_cast; linarith
    · push_cast; linarith
  rw [h]; omega

lemma castUsize_neg (q : ℚ) (h : q < 0) : castUsize q = 0 := by
  unfold castUsize
  have h1 : (⌊q⌋ : ℚ) ≤ q := Int.floor_le q
  have h2 : (⌊q⌋ : ℚ) < 0 := lt_of_le_of_lt h1 h
  have h3 : ⌊q⌋ < 0 := by exact_mod_cast h2
  omega

/-! ### Claim theorems -/

/-- C1: once the defeated flag is set, update (step) and
mouse_button_down_event (handleClick) are both no-ops: the state — all
entity collections, ledger, selection and the flag itself — is returned
unchanged. -/
theorem C1_terminal_latch (s : MyGame) (row : ℕ) (jit : ℚ) (b : MouseButton) (x y : ℚ)
    (h : s.game_over = true) :
    update s row jit = some s ∧ mouse_button_down_event s b x y = s := by
  constructor
  · simp [update, h]
  · simp [mouse_button_down_event, h]

/-- Witness for C1 at a concrete defeated state. -/
theorem C1_witness :
    ({ MyGame.new with game_over := true } : MyGame).game_over = true ∧
    update { MyGame.new with game_over := true } 0 1 = some { MyGame.new with game_over := true } ∧
    mouse_button_down_event { MyGame.new with game_over := true } MouseButton.Left 40 140 =
      { MyGame.new with game_over := true } :=
  ⟨rfl, (C1_terminal_latch _ 0 1 MouseButton.Left 40 140 rfl).1,
        (C1_terminal_latch _ 0 1 MouseButton.Left 40 140 rfl).2⟩

/-- C5: converting a valid cell to its screen center and back yields the
same cell. -/
theorem C5_cell_roundtrip (r c : ℕ) (hr : r < GRID_ROWS) (hc : c < GRID_COLUMNS) :
    screen_to_cell (cell_to_screen (r, c)).x (cell_to_screen (r, c)).y = some (r, c) := by
  have hy : ¬((r : ℚ) * CELL_SIZE + TOOLBAR_HEIGHT + CELL_SIZE / 2 < TOOLBAR_HEIGHT) := by
    unfold CELL_SIZE TOOLBAR_HEIGHT
    push_neg
    have : (0 : ℚ) ≤ (r : ℚ) := Nat.cast_nonneg r
    linarith
  have hrow : ((r : ℚ) * CELL_SIZE + TOOLBAR_HEIGHT + CELL_SIZE / 2 - TOOLBAR_HEIGHT) / CELL_SIZE
      = (r : ℚ) + 1 / 2 := by
    unfold CELL_SIZE TOOLBAR_HEIGHT; ring
  have hcol : ((c : ℚ) * CELL_SIZE + CELL_SIZE / 2) / CELL_SIZE = (c : ℚ) + 1 / 2 := by
    unfold CELL_SIZE; ring
  simp [screen_to_cell, cell_to_screen, hy, hrow, hcol, castUsize_natCast_add_half, hr, hc]

/-- Witness for C5 at cell (2, 3). -/
theorem C5_witness :
    2 < GRID_ROWS ∧ 3 < GRID_COLUMNS ∧
    screen_to_cell (cell_to_screen (2, 3)).x (cell_to_screen (2, 3)).y = some (2, 3) :=
  ⟨by decide, by decide, C5_cell_roundtrip 2 3 (by decide) (by decide)⟩

/-- C6 counterexample: the claim says an input with negative x yields none,
but the Rust saturating f32-to-usize cast turns a negative x into column 0,
so the click at x = -5, y = 150 resolves to cell (0, 0). -/
theorem C6_cex_negative_x : (-5 : ℚ) < 0 ∧ screen_to_cell (-5) 150 = some (0, 0) := by
  constructor
  · norm_num
  · norm_num [screen_to_cell, castUsize, TOOLBAR_HEIGHT, CELL_SIZE, GRID_ROWS, GRID_COLUMNS]
    decide

/-- C6 amended: screen_to_cell returns none when y is in the toolbar band
or the computed (row, col) is out of grid bounds, and otherwise the
truncated indices — but a negative x saturates to column 0 (it does not
yield none), so clicks left of the grid resolve to column 0 of the
computed row. -/
theorem C6_screen_mapping (x y : ℚ) :
    (y < TOOLBAR_HEIGHT → screen_to_cell x y = none) ∧
    (TOOLBAR_HEIGHT ≤ y →
      ¬(castUsize ((y - TOOLBAR_HEIGHT) / CELL_SIZE) < GRID_ROWS ∧
        castUsize (x / CELL_SIZE) < GRID_COLUMNS) →
      screen_to_cell x y = none) ∧
    (x < 0 → castUsize (x / CELL_SIZE) = 0) ∧
    (TOOLBAR_HEIGHT ≤ y → x < 0 → castUsize ((y - TOOLBAR_HEIGHT) / CELL_SIZE) < GRID_ROWS →
      screen_to_cell x y = some (castUsize ((y - TOOLBAR_HEIGHT) / CELL_SIZE), 0)) := by
  have hcol0 : x < 0 → castUsize (x / CELL_SIZE) = 0 := by
    intro hx
    have : x / CELL_SIZE < 0 := div_neg_of_neg_of_pos hx (by norm_num [CELL_SIZE])
    exact castUsize_neg _ this
  refine ⟨fun h => by simp [screen_to_cell, h], fun hy hb => ?_, hcol0, fun hy hx hr => ?_⟩
  · simp [screen_to_cell, not_lt.mpr hy, hb]
  · simp [screen_to_cell, not_lt.mpr hy, hcol0 hx, hr, GRID_COLUMNS]

/-- Witness for C6 amended, at the concrete input x = -5, y = 150. -/
theorem C6_witness :
    TOOLBAR_HEIGHT ≤ (150 : ℚ) ∧ (-5 : ℚ) < 0 ∧
    castUsize (((150 : ℚ) - TOOLBAR_HEIGHT) / CELL_SIZE) < GRID_ROWS ∧
    screen_to_cell (-5) 150 =
      some (castUsize (((150 : ℚ) - TOOLBAR_HEIGHT) / CELL_SIZE), 0) :=
  ⟨by norm_num [TOOLBAR_HEIGHT], by norm_num,
   by norm_num [castUsize, TOOLBAR_HEIGHT, CELL_SIZE, GRID_ROWS],
   (C6_screen_mapping (-5) 150).2.2.2 (by norm_num [TOOLBAR_HEIGHT]) (by norm_num)
     (by norm_num [castUsize, TOOLBAR_HEIGHT, CELL_SIZE, GRID_ROWS])⟩

/-- C10: an attacker sitting exactly at x = 0 at the boundary-check phase
is not retained by the cleanup pass (which keeps only x strictly greater
than 0) and does not contribute to the defeat check (which fires only for
x strictly less than 0). -/
theorem C10_exact_boundary (zs : List Zombie) (z : Zombie) (hx : z.position.x = 0) :
    z ∉ retainZombies (z :: zs) ∧ anyPastBoundary (z :: zs) = anyPastBoundary zs := by
  constructor
  · intro hmem
    simp [retainZombies, List.mem_filter, hx] at hmem
  · simp [anyPastBoundary, hx]

/-- Witness for C10 at a concrete attacker on the boundary. -/
theorem C10_witness :
    (⟨⟨0, 140⟩, 1, 50, false⟩ : Zombie).position.x = 0 ∧
    (⟨⟨0, 140⟩, 1, 50, false⟩ : Zombie) ∉ retainZombies [⟨⟨0, 140⟩, 1, 50, false⟩] ∧
    anyPastBoundary [⟨⟨0, 140⟩, 1, 50, false⟩] = anyPastBoundary [] :=
  ⟨rfl, (C10_exact_boundary [] _ rfl).1, (C10_exact_boundary [] _ rfl).2⟩

lemma blockOnePlant_zombies (pos : Vec2) (h : ℕ) (zs : List Zombie) :
    (blockOnePlant pos h zs).1 = zs.map fun z => { z with is_blocked := inProx pos z } := by
  induction zs generalizing h with
  | nil => rfl
  | cons z rest ih =>
    cases hp : inProx pos z
    · simp [blockOnePlant, hp, ih]
    · simp [blockOnePlant, hp, ih]

lemma blockingPhase_zombies (ps : List Plant) (zs : List Zombie) (i : ℕ) :
    (blockingPhase ps zs i).2.1 =
      match ps.getLast? with
      | none => zs
      | some p => zs.map fun z => { z with is_blocked := inProx (cell_to_screen p.cell) z } := by
  induction ps generalizing zs i with
  | nil => rfl
  | cons p rest ih =>
    have hstep : (blockingPhase (p :: rest) zs i).2.1
        = (blockingPhase rest (blockOnePlant (cell_to_screen p.cell) p.health zs).1 (i + 1)).2.1 :=
      rfl
    rw [hstep, blockOnePlant_zombies, ih]
    cases rest with
    | nil => simp
    | cons q rs =>
      have hsome : ∃ r, (q :: rs).getLast? = some r := by
        cases hgl : (q :: rs).getLast? with
        | none => exact absurd hgl (by simp)
        | some r => exact ⟨r, rfl⟩
      obtain ⟨r, hr⟩ := hsome
      rw [List.getLast?_cons_cons, hr]
      simp only [List.map_map]
      exact List.map_congr_left fun a _ => rfl

/-- C2 counterexample: an attacker standing exactly at the center of the
first of two defenders is within proximity of a defender, yet the
blocking-and-contact-damage phase leaves it unblocked, because the later
defender's iteration overwrites the flag. -/
theorem C2_cex_not_any_defender :
    inProx (cell_to_screen (0, 0)) (⟨⟨40, 140⟩, 1, 50, false⟩ : Zombie) = true ∧
    ((blockingPhase
        [⟨(0, 0), PlantType.Peashooter, 100, 0, 0⟩, ⟨(0, 4), PlantType.Peashooter, 100, 0, 0⟩]
        [⟨⟨40, 140⟩, 1, 50, false⟩] 0).2.1.map fun z => z.is_blocked) = [false] := by
  constructor
  · norm_num [inProx, cell_to_screen, CELL_SIZE, TOOLBAR_HEIGHT]
  · norm_num [blockingPhase, blockOnePlant, inProx, cell_to_screen, CELL_SIZE, TOOLBAR_HEIGHT]

/-- C2 amended: after the blocking-and-contact-damage phase, an attacker's
blocked flag equals its proximity test against the LAST defender in the
collection (each defender's iteration overwrites the flag, so the last one
wins); when there are no defenders the flag keeps its previous value
rather than being recomputed. -/
theorem C2_blocked_iff_near_last_defender (ps : List Plant) (zs : List Zombie) (i : ℕ) :
    (blockingPhase ps zs i).2.1 =
      match ps.getLast? with
      | none => zs
      | some p => zs.map fun z => { z with is_blocked := inProx (cell_to_screen p.cell) z } :=
  blockingPhase_zombies ps zs i

lemma fallSun_iterate (su : Sun) (h : su.is_collected = false) (n : ℕ) :
    (fallSun^[n] su).is_collected = false ∧
    (fallSun^[n] su).position.y = su.position.y + n * SUN_FALL_SPEED := by
  induction n with
  | zero => simp [h]
  | succ k ih =>
    obtain ⟨h1, h2⟩ := ih
    constructor
    · rw [Function.iterate_succ_apply']
      simp [fallSun, h1]
    · rw [Function.iterate_succ_apply']
      simp only [fallSun, h1, Bool.false_eq_true, if_false, h2]
      push_cast
      ring

/-- C8 counterexample: for the concrete uncollected drop at (40, 140)
there is no bound B after which stepping stops changing its position —
the fall never stops (negating the claim's existential). -/
theorem C8_cex_fall_never_stops :
    ¬ ∃ B : ℕ, ∀ n : ℕ, B ≤ n →
      (fallSun^[n + 1] (⟨⟨40, 140⟩, false, 0⟩ : Sun)).position.y =
        (fallSun^[n] (⟨⟨40, 140⟩, false, 0⟩ : Sun)).position.y := by
  rintro ⟨B, hB⟩
  have h1 := (fallSun_iterate (⟨⟨40, 140⟩, false, 0⟩ : Sun) rfl (B + 1)).2
  have h2 := (fallSun_iterate (⟨⟨40, 140⟩, false, 0⟩ : Sun) rfl B).2
  have hb := hB B le_rfl
  rw [h1, h2] at hb
  rw [SUN_FALL_SPEED] at hb
  push_cast at hb
  linarith

/-- C8 amended: an uncollected resource drop falls by SUN_FALL_SPEED every
tick indefinitely (its fall timer is advanced but never consulted, so the
fall never stops), and it stays uncollected across ticks. -/
theorem C8_fall_unbounded (su : Sun) (h : su.is_collected = false) (n : ℕ) :
    (fallSun^[n] su).position.y = su.position.y + n * SUN_FALL_SPEED ∧
    (fallSun^[n] su).is_collected = false :=
  ⟨(fallSun_iterate su h n).2, (fallSun_iterate su h n).1⟩

/-- Witness for C8 amended at the concrete drop after 3 ticks. -/
theorem C8_witness :
    (⟨⟨40, 140⟩, false, 0⟩ : Sun).is_collected = false ∧
    (fallSun^[3] (⟨⟨40, 140⟩, false, 0⟩ : Sun)).position.y = 140 + 3 * SUN_FALL_SPEED ∧
    (fallSun^[3] (⟨⟨40, 140⟩, false, 0⟩ : Sun)).is_collected = false :=
  ⟨rfl, by
    have h := (C8_fall_unbounded (⟨⟨40, 140⟩, false, 0⟩ : Sun) rfl 3).1
    simpa using h,
   (C8_fall_unbounded (⟨⟨40, 140⟩, false, 0⟩ : Sun) rfl 3).2⟩

lemma collideBullets_no_zombies (bs : List Bullet) (i : ℕ) :
    collideBullets bs [] i = ([], [], []) := by
  induction bs generalizing i with
  | nil => rfl
  | cons b rest ih => simp [collideBullets, shootZombies, ih]

/-- C9 counterexample: a projectile at x = 799 advances to x = 801, past
the right edge of the 800-wide playfield, and survives the step — the code
never removes projectiles for leaving the playfield. -/
theorem C9_cex_past_edge :
    (update { MyGame.new with bullets := [⟨⟨799, 140⟩, 0⟩] } 0 1).map
      (fun t => t.bullets.map fun b => b.position.x) = some [801] ∧
    WINDOW_WIDTH < 801 := by
  constructor
  · norm_num [update, MyGame.new, produceSuns, stepSunflower, stepPeashooter, shootPlants,
      fallSun, moveBullet, collideBullets, shootZombies, hitTest, castUsize, vecRemoveList,
      vecRemove, dequeRemoveList, moveZombie, blockingPhase, blockOnePlant, inProx,
      unblockAndRemove, anyPastBoundary, retainZombies, spawnZombie, U32, TOOLBAR_HEIGHT,
      CELL_SIZE, SUN_PRODUCE_INTERVAL, PEASHOOTER_SHOOT_INTERVAL, PEASHOOTER_BULLET_SPEED,
      SUN_FALL_SPEED, DEFAULT_ZOMBIE_SPEED, WINDOW_WIDTH, cell_to_screen, pea_ne_sun]
  · norm_num [WINDOW_WIDTH]

/-- C9 amended: projectiles are destroyed only by collision; with no
attackers (and no defenders emitting new shots) a step moves every
projectile right by its speed and keeps all of them, with no culling at
the playfield edge. -/
theorem C9_projectiles_never_culled (s : MyGame) (row : ℕ) (jit : ℚ)
    (hgo : s.game_over = false) (hp : s.plants = []) (hz : s.zombies = []) :
    ∃ s', update s row jit = some s' ∧ s'.bullets = s.bullets.map moveBullet := by
  unfold update
  rw [hgo, hp, hz]
  simp only [Bool.false_eq_true, if_false, produceSuns, shootPlants, collideBullets_no_zombies,
    List.append_nil, List.reverse_nil, vecRemoveList, dequeRemoveList, List.foldl_nil,
    List.map_nil, blockingPhase, unblockAndRemove]
  split
  · exact ⟨_, rfl, rfl⟩
  · exact ⟨_, rfl, rfl⟩

/-- Witness for C9 amended at the concrete state with a projectile at
x = 799. -/
theorem C9_witness :
    ({ MyGame.new with bullets := [⟨⟨799, 140⟩, 0⟩] } : MyGame).game_over = false ∧
    ∃ s', update { MyGame.new with bullets := [⟨⟨799, 140⟩, 0⟩] } 0 1 = some s' ∧
      s'.bullets = [⟨⟨799, 140⟩, 0⟩].map moveBullet :=
  ⟨rfl, C9_projectiles_never_culled _ 0 1 rfl rfl rfl⟩

/-- C4: placement on an in-bounds unoccupied cell with a selected type
creates the defender and debits exactly its cost iff the balance covers
it; an occupied cell or insufficient funds leave plants and balance
unchanged (silent no-op), and the debit can never drive the balance
negative (it is exact: new balance + cost = old balance). -/
theorem C4_placement (s : MyGame) (cell : ℕ × ℕ) :
    ((∃ p ∈ s.plants, p.cell = cell) → placePlant s cell = s) ∧
    (∀ pt, s.selected_plant = some pt → (¬∃ p ∈ s.plants, p.cell = cell) →
      ((get_plant_cost pt ≤ s.sun →
          (placePlant s cell).plants = s.plants ++ [mkPlant cell pt] ∧
          (placePlant s cell).sun + get_plant_cost pt = s.sun) ∧
       (s.sun < get_plant_cost pt → placePlant s cell = s))) := by
  constructor
  · intro hocc
    simp [placePlant, hocc]
  · intro pt hsel hocc
    constructor
    · intro hcost
      simp only [placePlant, hocc, if_false, hsel]
      rw [if_pos hcost]
      exact ⟨rfl, Nat.sub_add_cancel hcost⟩
    · intro hcost
      simp only [placePlant, hocc, if_false, hsel]
      rw [if_neg (not_le.mpr hcost)]

/-- Witness for C4: scenario A — placing the cost-50 Sunflower with
balance 50 succeeds leaving balance 0, and a second placement attempt is
a no-op. -/
theorem C4_witness :
    scenarioA.selected_plant = some PlantType.Sunflower ∧
    (placePlant scenarioA (0, 0)).plants = scenarioA.plants ++ [mkPlant (0, 0) PlantType.Sunflower] ∧
    (placePlant scenarioA (0, 0)).sun + get_plant_cost PlantType.Sunflower = scenarioA.sun ∧
    (placePlant scenarioA (0, 0)).sun < get_plant_cost PlantType.Sunflower ∧
    placePlant (placePlant scenarioA (0, 0)) (0, 1) = placePlant scenarioA (0, 0) := by
  refine ⟨rfl, ?_, ?_, by decide, ?_⟩
  · exact (((C4_placement scenarioA (0, 0)).2 PlantType.Sunflower rfl (by simp [scenarioA, MyGame.new])).1
      (by decide)).1
  · exact (((C4_placement scenarioA (0, 0)).2 PlantType.Sunflower rfl (by simp [scenarioA, MyGame.new])).1
      (by decide)).2
  · exact ((C4_placement (placePlant scenarioA (0, 0)) (0, 1)).2 PlantType.Sunflower (by decide)
      (by decide)).2 (by decide)

lemma stepSunflower_cell (p : Plant) : (stepSunflower p).1.cell = p.cell := by
  unfold stepSunflower
  split_ifs <;> rfl

lemma stepPeashooter_cell (p : Plant) : (stepPeashooter p).1.cell = p.cell := by
  unfold stepPeashooter
  split_ifs <;> rfl

lemma produceSuns_cells (ps : List Plant) :
    (produceSuns ps).1.map (fun p => p.cell) = ps.map fun p => p.cell := by
  induction ps with
  | nil => rfl
  | cons p rest ih => simp [produceSuns, stepSunflower_cell, ih]

lemma shootPlants_cells (ps : List Plant) :
    (shootPlants ps).1.map (fun p => p.cell) = ps.map fun p => p.cell := by
  induction ps with
  | nil => rfl
  | cons p rest ih => simp [shootPlants, stepPeashooter_cell, ih]

lemma blockingPhase_cells (ps : List Plant) (zs : List Zombie) (i : ℕ) :
    (blockingPhase ps zs i).1.map (fun p => p.cell) = ps.map fun p => p.cell := by
  induction ps generalizing zs i with
  | nil => rfl
  | cons p rest ih => simp [blockingPhase, ih]

lemma unblockAndRemove_sublist :
    ∀ (idxs : List ℕ) (ps : List Plant) (zs : List Zombie) (out : List Plant × List Zombie),
      unblockAndRemove ps zs idxs = some out → out.1.Sublist ps := by
  intro idxs
  induction idxs with
  | nil =>
    intro ps zs out h
    unfold unblockAndRemove at h
    injection h with h2
    rw [← h2]
  | cons i rest ih =>
    intro ps zs out h
    unfold unblockAndRemove at h
    split at h
    · exact (ih _ _ _ h).trans (List.eraseIdx_sublist ps i)
    · exact absurd h (by simp)

lemma update_plants_nodup (s : MyGame) (row : ℕ) (jit : ℚ) (s' : MyGame)
    (h : update s row jit = some s') (hu : plantsUnique s) : plantsUnique s' := by
  unfold update at h
  by_cases hgo : s.game_over
  · rw [if_pos hgo] at h
    injection h with h2
    rw [← h2]
    exact hu
  · rw [if_neg hgo] at h
    dsimp only [] at h
    split at h
    · exact absurd h (by simp)
    · split at h
      · exact absurd h (by simp)
      · rename_i bullets2 hb pz hpz
        have hsub := unblockAndRemove_sublist _ _ _ _ hpz
        have hmap := hsub.map fun p => p.cell
        rw [blockingPhase_cells, shootPlants_cells, produceSuns_cells] at hmap
        split at h <;>
        · injection h with h2
          rw [← h2]
          exact hu.sublist hmap

lemma placePlant_nodup (s : MyGame) (cell : ℕ × ℕ) (hu : plantsUnique s) :
    plantsUnique (placePlant s cell) := by
  unfold placePlant
  split
  · exact hu
  · rename_i hocc
    split
    · exact hu
    · rename_i pt hsel
      split
      · unfold plantsUnique
        simp only [List.map_append, List.map_cons, List.map_nil]
        rw [List.nodup_append]
        refine ⟨hu, List.nodup_singleton _, ?_⟩
        intro a ha hb
        simp only [List.mem_singleton] at hb
        obtain ⟨p, hp, hpc⟩ := List.mem_map.mp ha
        exact hocc ⟨p, hp, by rw [hpc, hb]; rfl⟩
      · exact hu

lemma click_nodup (s : MyGame) (b : MouseButton) (x y : ℚ) (hu : plantsUnique s) :
    plantsUnique (mouse_button_down_event s b x y) := by
  unfold mouse_button_down_event
  split
  · exact hu
  · split
    · exact hu
    · split
      · split
        · exact hu
        · split
          · exact hu
          · split
            · exact hu
            · exact hu
      · dsimp only []
        split
        · exact hu
        · exact placePlant_nodup _ _ hu

/-- C7: at most one defender occupies any grid cell: the uniqueness
invariant holds in the initial state and is preserved by every
(non-panicking) update and every mouse_button_down_event. -/
theorem C7_defender_cells_unique :
    plantsUnique MyGame.new ∧
    (∀ s row jit s', update s row jit = some s' → plantsUnique s → plantsUnique s') ∧
    (∀ s b x y, plantsUnique s → plantsUnique (mouse_button_down_event s b x y)) :=
  ⟨List.nodup_nil, fun s row jit s' h hu => update_plants_nodup s row jit s' h hu,
   fun s b x y hu => click_nodup s b x y hu⟩

/-- Witness for C7: one concrete update step from the initial state and
one concrete click. -/
theorem C7_witness :
    update MyGame.new 0 1 = some { MyGame.new with sun_timer := 1, spawn_timer := 1 } ∧
    plantsUnique { MyGame.new with sun_timer := 1, spawn_timer := 1 } ∧
    plantsUnique (mouse_button_down_event MyGame.new MouseButton.Left 300 300) :=
  ⟨by decide,
   C7_defender_cells_unique.2.1 MyGame.new 0 1 _ (by decide) C7_defender_cells_unique.1,
   C7_defender_cells_unique.2.2 MyGame.new MouseButton.Left 300 300 C7_defender_cells_unique.1⟩

/-- C3: with two defenders (health 1, cells (0,0) and (0,4)) each in
contact with one attacker, both defenders die in the same tick; the
dead-plant removal pass collects indices 0 and 1 and removes them in
ascending order, so after removing index 0 the access at index 1 is out
of bounds and the tick panics (modelled as none). -/
theorem C3_removal_out_of_bounds :
    update { MyGame.new with
               plants := [⟨(0, 0), PlantType.Peashooter, 1, 0, 0⟩,
                          ⟨(0, 4), PlantType.Peashooter, 1, 0, 0⟩]
               zombies := [⟨⟨40, 140⟩, 1, 50, true⟩, ⟨⟨360, 140⟩, 1, 50, true⟩] } 0 1 = none := by
  norm_num [update, MyGame.new, produceSuns, stepSunflower, stepPeashooter, shootPlants,
    fallSun, moveBullet, collideBullets, shootZombies, hitTest, castUsize, vecRemoveList,
    vecRemove, dequeRemoveList, moveZombie, blockingPhase, blockOnePlant, inProx,
    unblockAndRemove, anyPastBoundary, retainZombies, spawnZombie, U32, TOOLBAR_HEIGHT,
    CELL_SIZE, SUN_PRODUCE_INTERVAL, PEASHOOTER_SHOOT_INTERVAL, PEASHOOTER_BULLET_SPEED,
    SUN_FALL_SPEED, DEFAULT_ZOMBIE_SPEED, WINDOW_WIDTH, cell_to_screen, pea_ne_sun]

end PvZ
